import Mathlib

/-
Formal model of the grafterm metric-gathering core.

The Go sources are embedded shallowly:
 - durations and instants are integers counting nanoseconds (Go time.Duration
   and time.Time); calls to time.Now() become explicit now parameters,
 - Go maps become association lists with insert-or-replace semantics,
 - fallible Go functions return Option or Except,
 - goroutine environments (context state at each checkpoint, the outcome of
   each backend attempt) become explicit environment records supplied to the
   modelled control flow,
 - float64 arithmetic in calculateRangeTimeout and Stats is modelled exactly
   over the integers and rationals; Go conversion of a positive real to
   time.Duration truncates, which is Nat division here.
-/

namespace Grafterm

/-- A point of a metric series (model.MetricPoint); float64 value modelled as a rational. -/
structure MetricPoint where
  value : Rat
  ts : Int
deriving DecidableEq

/-- A metric series (model.MetricSeries); opaque payload for the caching layer. -/
structure MetricSeries where
  id : String
  labels : List (String × String)
  points : List MetricPoint
deriving DecidableEq

/-- A time range (model.TimeRange): start and end instants in nanoseconds. -/
structure TimeRange where
  start : Int
  endT : Int
deriving DecidableEq

/-- Values of Go ctx.Err(): deadline exceeded or cancellation. -/
inductive CtxErr where
  | deadlineExceeded : CtxErr
  | canceled : CtxErr
deriving DecidableEq

/-- Go error values as they occur in the metric core: the two context errors,
an arbitrary backend error carrying its message, and a wrapping produced by
fmt.Errorf with a percent-w verb. -/
inductive GoErr where
  | ctxDeadlineExceeded : GoErr
  | ctxCanceled : GoErr
  | backend : String → GoErr
  | wrap : String → GoErr → GoErr
deriving DecidableEq

/-- The Error() string of a modelled Go error. -/
def GoErr.errMsg : GoErr → String
  | .ctxDeadlineExceeded => "context deadline exceeded"
  | .ctxCanceled => "context canceled"
  | .backend m => m
  | .wrap m e => m ++ ": " ++ e.errMsg

/-- The Go error corresponding to a fired context. -/
def CtxErr.toGoErr : CtxErr → GoErr
  | .deadlineExceeded => GoErr.ctxDeadlineExceeded
  | .canceled => GoErr.ctxCanceled

/-- Lookup in an association list modelling a Go map. -/
def lookupA {α : Type} : List (String × α) → String → Option α
  | [], _ => none
  | (k2, v) :: rest, k => if k2 = k then some v else lookupA rest k

/-- Insert-or-replace in an association list modelling a Go map assignment. -/
def insertA {α : Type} : List (String × α) → String → α → List (String × α)
  | [], k, v => [(k, v)]
  | (k2, v2) :: rest, k, v =>
    if k2 = k then (k, v) :: rest else (k2, v2) :: insertA rest k v

/-- Deletion from an association list modelling a Go map delete. -/
def removeA {α : Type} : List (String × α) → String → List (String × α)
  | [], _ => []
  | (k2, v2) :: rest, k =>
    if k2 = k then rest else (k2, v2) :: removeA rest k

/-- Substring test on character lists (strings.Contains). -/
def listContainsSub (hay pat : List Char) : Bool :=
  match hay with
  | [] => pat.isEmpty
  | _ :: rest => pat.isPrefixOf hay || listContainsSub rest pat

/-- Substring test on strings (strings.Contains). -/
def strContainsSub (hay pat : String) : Bool :=
  listContainsSub hay.toList pat.toList

end Grafterm

namespace Grafterm.Metric

open Grafterm

/-- MetricCacheKey (cache.go): the struct returned by NewCacheKey. The Go
struct stores the range component of the time range; the model keeps the whole
time range, which is likewise never read by Get or Set. -/
structure MetricCacheKey where
  datasourceID : String
  query : String
  range : TimeRange
deriving DecidableEq

/-- NewCacheKey (cache.go). The Go function also writes datasourceID, query
and the formatted start and end of the time range into a fresh SHA-256 hasher
whose digest is then discarded; only the struct below is returned. -/
def NewCacheKey (datasourceID query : String) (tr : TimeRange) : MetricCacheKey :=
  { datasourceID := datasourceID, query := query, range := tr }

/-- The string whose SHA-256 hex digest Get and Set use as the map key:
fmt.Sprintf of datasourceID and query joined by a colon. The hash is a fixed
deterministic function applied to this string by both Get and Set, and map
keys are only compared for equality, so the model uses the preimage string
itself as the key. The time range takes no part in it. -/
def cacheKeyString (key : MetricCacheKey) : String :=
  key.datasourceID ++ ":" ++ key.query

/-- cacheEntry (cache.go). -/
structure CacheEntry where
  data : List MetricSeries
  created : Int
  expires : Int
  hits : Int
deriving DecidableEq

/-- MetricCache state (cache.go). -/
structure MetricCache where
  entries : List (String × CacheEntry)
  maxSize : Int
  maxAge : Int
  hits : Int
  misses : Int
deriving DecidableEq

/-- NewMetricCache (cache.go): empty entries, zero counters. -/
def NewMetricCache (maxSize maxAge : Int) : MetricCache :=
  { entries := [], maxSize := maxSize, maxAge := maxAge, hits := 0, misses := 0 }

/-- Result of MetricCache.Get: the returned data (nil becomes none), the found
flag, and the cache state after the call. -/
structure GetResult where
  data : Option (List MetricSeries)
  found : Bool
  cache : MetricCache
deriving DecidableEq

/-- MetricCache.Get (cache.go): a hit requires now before expires and bumps
the entry hit counter and the global hit counter; an expired entry is deleted;
any other outcome counts as a miss. -/
def MetricCache.Get (mc : MetricCache) (now : Int) (key : MetricCacheKey) : GetResult :=
  let ck := cacheKeyString key
  match lookupA mc.entries ck with
  | some entry =>
    if now < entry.expires then
      { data := some entry.data
        found := true
        cache := { mc with
                    entries := insertA mc.entries ck { entry with hits := entry.hits + 1 }
                    hits := mc.hits + 1 } }
    else
      { data := none
        found := false
        cache := { mc with entries := removeA mc.entries ck, misses := mc.misses + 1 } }
  | none =>
    { data := none, found := false, cache := { mc with misses := mc.misses + 1 } }

/-- evictOldEntries (cache.go): delete every entry whose expiry lies strictly
in the past. -/
def MetricCache.evictOldEntries (mc : MetricCache) (now : Int) : MetricCache :=
  { mc with entries := mc.entries.filter (fun p => decide (now ≤ p.2.expires)) }

/-- MetricCache.Set (cache.go): when twice the entry count exceeds maxSize,
sweep expired entries; then store a fresh entry expiring maxAge from now,
overwriting any entry under the same key. -/
def MetricCache.Set (mc : MetricCache) (now : Int) (key : MetricCacheKey)
    (data : List MetricSeries) : MetricCache :=
  let mc2 := if (mc.entries.length : Int) * 2 > mc.maxSize then mc.evictOldEntries now else mc
  { mc2 with
     entries := insertA mc2.entries (cacheKeyString key)
       { data := data, created := now, expires := now + mc2.maxAge, hits := 0 } }

/-- CacheStats (cache.go); float64 hit rate modelled as a rational. -/
structure CacheStats where
  hitsS : Int
  missesS : Int
  hitRate : Rat
  size : Int
deriving DecidableEq

/-- MetricCache.Stats (cache.go): the hit rate is hits over total times 100,
guarded to zero when the total is not positive. -/
def MetricCache.Stats (mc : MetricCache) : CacheStats :=
  let total := mc.hits + mc.misses
  let hitRate : Rat := if total > 0 then (mc.hits : Rat) / (total : Rat) * 100 else 0
  { hitsS := mc.hits, missesS := mc.misses, hitRate := hitRate, size := (mc.entries.length : Int) }

/-- MetricCache.Clear (cache.go): drop all entries and reset both counters. -/
def MetricCache.Clear (mc : MetricCache) : MetricCache :=
  { mc with entries := [], hits := 0, misses := 0 }

end Grafterm.Metric

namespace Grafterm.Prometheus

open Grafterm

/-- DefaultTimeout (enhanced.go), in nanoseconds: 5 seconds. -/
def DefaultTimeout : Int := 5000000000

/-- MinTimeout (enhanced.go), in nanoseconds: 1 second. -/
def MinTimeout : Int := 1000000000

/-- MaxTimeout (enhanced.go), in nanoseconds: 30 seconds. -/
def MaxTimeout : Int := 30000000000

/-- SetTimeout (enhanced.go): the value stored into the gatherer timeout
field, substituting the default for a nonpositive input, then capping at 30s,
then raising to at least 1s. -/
def SetTimeout (duration : Int) : Int :=
  let d1 := if duration ≤ 0 then DefaultTimeout else duration
  let d2 := if d1 > 30000000000 then 30000000000 else d1
  let d3 := if d2 < 1000000000 then 1000000000 else d2
  d3

/-- calculateRangeTimeout (enhanced.go). The Go code computes the float64
scale factor rangeSize over one hour; the guard scaleFactor greater than one
is rangeSize greater than one hour in exact arithmetic, and the scaled float64
product converted to time.Duration truncates, which for the nonnegative
operands occurring under the gatherer timeout invariant is Nat floor division
here. -/
def calculateRangeTimeout (baseTimeout : Int) (start endT : Int) : Int :=
  let rangeSize := endT - start
  if (3600000000000 : Int) < rangeSize then
    let timeout : Int := Int.ofNat (baseTimeout.toNat * rangeSize.toNat / 3600000000000)
    if (30000000000 : Int) < timeout then 30000000000 else timeout
  else baseTimeout

/-- The outcome counters of a gatherer (gathererMetrics in enhanced.go). -/
structure GathererMetricsState where
  queriesTotal : Int
  queriesSuccessful : Int
  queriesFailed : Int
  queriesTimeout : Int
  averageExecTime : Int
deriving DecidableEq

/-- The zero-valued counters a new enhanced gatherer starts with. -/
def initialMetrics : GathererMetricsState :=
  { queriesTotal := 0, queriesSuccessful := 0, queriesFailed := 0
    queriesTimeout := 0, averageExecTime := 0 }

/-- markSuccess (enhanced.go). -/
def markSuccess (m : GathererMetricsState) : GathererMetricsState :=
  { m with queriesTotal := m.queriesTotal + 1, queriesSuccessful := m.queriesSuccessful + 1 }

/-- markFailure (enhanced.go). -/
def markFailure (m : GathererMetricsState) : GathererMetricsState :=
  { m with queriesTotal := m.queriesTotal + 1, queriesFailed := m.queriesFailed + 1 }

/-- markTimeout (enhanced.go). -/
def markTimeout (m : GathererMetricsState) : GathererMetricsState :=
  { m with queriesTotal := m.queriesTotal + 1, queriesTimeout := m.queriesTimeout + 1 }

/-- recordExecutionTime (enhanced.go): blends the previous average with the
new sample at equal weight once a success has been recorded. -/
def recordExecutionTime (m : GathererMetricsState) (duration : Int) : GathererMetricsState :=
  if 0 < m.queriesSuccessful then
    { m with averageExecTime := (m.averageExecTime + duration) / 2 }
  else
    { m with averageExecTime := duration }

/-- Which counter a terminal exit of the retry loop increments. -/
inductive MarkKind where
  | success : MarkKind
  | failure : MarkKind
  | timeout : MarkKind
deriving DecidableEq

/-- Apply one counter increment. -/
def applyMark (m : GathererMetricsState) : MarkKind → GathererMetricsState
  | MarkKind.success => markSuccess m
  | MarkKind.failure => markFailure m
  | MarkKind.timeout => markTimeout m

/-- Apply a sequence of counter increments in order. -/
def applyMarks (m : GathererMetricsState) : List MarkKind → GathererMetricsState
  | [] => m
  | k :: rest => applyMarks (applyMark m k) rest

/-- isContextError (enhanced.go): substring match of the error message against
deadline exceeded, canceled and timeout. -/
def isContextError (e : Option GoErr) : Bool :=
  match e with
  | none => false
  | some err =>
    strContainsSub err.errMsg ("deadline exceeded") ||
    strContainsSub err.errMsg ("canceled") ||
    strContainsSub err.errMsg ("timeout")

/-- Which return statement of executeWithRetry fired. -/
inductive ExitKind where
  | success : ExitKind
  | loopTopCtx : ExitKind
  | attemptCtxErr : ExitKind
  | backoffInterrupted : ExitKind
  | exhausted : ExitKind
deriving DecidableEq

/-- The environment of one loop iteration: the context state observed at the
top-of-loop check, the outcome of the backend attempt, and whether the context
fires during the backoff wait that may follow it. -/
structure AttemptStep where
  ctxErr : Option CtxErr
  result : List MetricSeries
  err : Option GoErr
  backoffCtxErr : Option CtxErr

/-- The environment of a whole retry loop run, indexed by iteration. -/
def RetryEnv := Nat → AttemptStep

/-- The observable outcome of one executeWithRetry run: the returned pair,
the number of backend attempts made, the backoff delays entered (nanoseconds),
which counter was incremented, and which return statement fired. -/
structure RunResult where
  result : Option (List MetricSeries)
  err : Option GoErr
  attempts : Nat
  backoffs : List Int
  mark : Option MarkKind
  exitPath : ExitKind
deriving DecidableEq

/-- The retry loop shared by executeWithRetry and executeWithRetryForRange
(enhanced.go), parameterized by the backoff step and the wrap message of the
top-of-loop context exit. The first Nat is the current retry index, the second
the remaining iterations out of maxRetries equal to two. -/
def executeWithRetryLoop (backoffStep : Int) (wrapMsg : String) (env : RetryEnv) :
    Nat → Nat → Option GoErr → List Int → RunResult
  | retry, 0, lastErr, acc =>
    { result := none, err := lastErr, attempts := retry, backoffs := acc.reverse
      mark := some MarkKind.failure, exitPath := ExitKind.exhausted }
  | retry, rem + 1, _lastErr, acc =>
    let step := env retry
    match step.ctxErr with
    | some ce =>
      { result := none, err := some (GoErr.wrap wrapMsg ce.toGoErr), attempts := retry
        backoffs := acc.reverse, mark := some MarkKind.timeout, exitPath := ExitKind.loopTopCtx }
    | none =>
      match step.err with
      | none =>
        { result := some step.result, err := none, attempts := retry + 1
          backoffs := acc.reverse, mark := some MarkKind.success, exitPath := ExitKind.success }
      | some e =>
        if isContextError (some e) then
          { result := none, err := some e, attempts := retry + 1, backoffs := acc.reverse
            mark := some MarkKind.timeout, exitPath := ExitKind.attemptCtxErr }
        else if 0 < rem then
          let b : Int := ((retry : Int) + 1) * backoffStep
          match step.backoffCtxErr with
          | some ce =>
            { result := none, err := some ce.toGoErr, attempts := retry + 1
              backoffs := (b :: acc).reverse, mark := none
              exitPath := ExitKind.backoffInterrupted }
          | none => executeWithRetryLoop backoffStep wrapMsg env (retry + 1) rem (some e) (b :: acc)
        else
          executeWithRetryLoop backoffStep wrapMsg env (retry + 1) rem (some e) acc

/-- executeWithRetry (enhanced.go): maxRetries is two, the backoff step is
100 milliseconds. -/
def executeWithRetry (env : RetryEnv) : RunResult :=
  executeWithRetryLoop 100000000 ("query deadline exceeded") env 0 2 none []

/-- executeWithRetryForRange (enhanced.go): maxRetries is two, the backoff
step is 250 milliseconds. -/
def executeWithRetryForRange (env : RetryEnv) : RunResult :=
  executeWithRetryLoop 250000000 ("range query deadline exceeded") env 0 2 none []

end Grafterm.Prometheus

namespace Grafterm.Datasource

open Grafterm

/-- The backend kind a datasource configuration selects (which of the optional
sub-configurations of model.Datasource is set). -/
inductive DatasourceKind where
  | prometheusDS : DatasourceKind
  | graphiteDS : DatasourceKind
  | influxdbDS : DatasourceKind
  | fakeDS : DatasourceKind
deriving DecidableEq

/-- A declared datasource: its ID and its backend kind, none when no backend
sub-configuration is set. -/
structure Datasource where
  id : String
  kind : Option DatasourceKind
deriving DecidableEq

/-- Which declaration list a created gatherer came from. -/
inductive Origin where
  | dashboard : Origin
  | user : Origin
deriving DecidableEq

/-- The identity of a gatherer created by createGatherer: one fresh gatherer
per declared datasource entry. -/
structure GathererRef where
  origin : Origin
  ds : Datasource
deriving DecidableEq

/-- createGatherer (datasource.go): dispatches on the set sub-configuration,
failing when none is set. -/
def createGatherer (origin : Origin) (ds : Datasource) : Except String GathererRef :=
  match ds.kind with
  | some _ => Except.ok { origin := origin, ds := ds }
  | none => Except.error ("not a valid datasource")

/-- The per-list construction loops of NewGatherer: create one gatherer per
datasource and store it under its ID, later entries overwriting earlier ones. -/
def buildMap (origin : Origin) :
    List Datasource → List (String × GathererRef) → Except String (List (String × GathererRef))
  | [], acc => Except.ok acc
  | ds :: rest, acc =>
    match createGatherer origin ds with
    | Except.error e => Except.error e
    | Except.ok g => buildMap origin rest (insertA acc ds.id g)

/-- The mid-priority loop of NewGatherer: for every ID of the dashboard map
present in the user map, replace the gatherer with the user one. -/
def overrideWithUser (gs ags : List (String × GathererRef)) : List (String × GathererRef) :=
  gs.map (fun p => match lookupA ags p.1 with | some g => (p.1, g) | none => p)

/-- The alias loop of NewGatherer: for every alias entry, install the user
gatherer named by the alias target under the dashboard ID, failing when the
target does not exist in the user map. -/
def applyAliases (ags : List (String × GathererRef)) :
    List (String × GathererRef) → List (String × String) → Except String (List (String × GathererRef))
  | gs, [] => Except.ok gs
  | gs, (id, aliasT) :: rest =>
    match lookupA ags aliasT with
    | none => Except.error ("alias " ++ aliasT ++ " for ID " ++ id ++ " not found")
    | some ag => applyAliases ags (insertA gs id ag) rest

/-- NewGatherer (datasource.go): build the dashboard map, build the user map,
apply the direct override, apply the aliases; the router is the resulting map. -/
def NewGatherer (dash user : List Datasource) (aliases : List (String × String)) :
    Except String (List (String × GathererRef)) :=
  match buildMap Origin.dashboard dash [] with
  | Except.error e => Except.error e
  | Except.ok gs =>
    match buildMap Origin.user user [] with
    | Except.error e => Except.error e
    | Except.ok ags => applyAliases ags (overrideWithUser gs ags) aliases

/-- metricGatherer (datasource.go): per-query resolution of a datasource ID. -/
def metricGatherer (gs : List (String × GathererRef)) (id : String) : Except String GathererRef :=
  match lookupA gs id with
  | some g => Except.ok g
  | none => Except.error ("datasource " ++ id ++ " does not exists")

/-- Whether an Except value is a success. -/
def exceptIsOk {α : Type} : Except String α → Bool
  | Except.ok _ => true
  | Except.error _ => false

end Grafterm.Datasource

namespace Grafterm.View

open Grafterm

/-- How one widget sync task ends (app.go dashboard Sync): a clean return, an
error return, a recovered panic, or the nil-widget guard. -/
inductive WidgetOutcome where
  | ok : WidgetOutcome
  | fail : String → WidgetOutcome
  | panicked : String → WidgetOutcome
  | isNil : WidgetOutcome
deriving DecidableEq

/-- One widget task of a dashboard wave: its outcome and the widget context
error state observed by the error branch. -/
structure WidgetTask where
  outcome : WidgetOutcome
  ctxErrAtCheck : Option CtxErr
deriving DecidableEq

/-- The error one widget task sends into the error channel, if any, with the
message wrapping performed by the goroutine body in dashboard Sync. -/
def widgetTaskError (t : WidgetTask) : Option String :=
  match t.outcome with
  | WidgetOutcome.ok => none
  | WidgetOutcome.isNil => some ("widget is nil, skipping sync")
  | WidgetOutcome.panicked m => some ("widget sync panic recovered: " ++ m)
  | WidgetOutcome.fail e =>
    match t.ctxErrAtCheck with
    | some CtxErr.deadlineExceeded => some ("widget sync timeout: " ++ e)
    | some CtxErr.canceled => some ("widget sync canceled: " ++ e)
    | none => some ("error syncing widget: " ++ e)

/-- The observable outcome of dashboard Sync: the capacity of the buffered
error channel, the errors drained and logged after the join, and the value the
method returns. -/
structure DashSyncResult where
  channelCapacity : Nat
  loggedErrors : List String
  returned : Option String
deriving DecidableEq

/-- dashboard Sync (app.go): one task per widget, each sending at most one
error into a channel buffered to the widget count; after all tasks join, the
errors are drained and logged and nil is returned. -/
def dashboardSync (widgets : List WidgetTask) : DashSyncResult :=
  { channelCapacity := widgets.length
    loggedErrors := widgets.filterMap widgetTaskError
    returned := none }

end Grafterm.View

namespace Grafterm.Metric

open Grafterm

/-- DefaultTimeout of the query executor (part of package metric), 5 seconds. -/
def qeDefaultTimeout : Int := 5000000000

/-- MaxConcurrentCalls of the query executor. -/
def MaxConcurrentCalls : Nat := 10

/-- MaxRetransmission of the query executor. -/
def MaxRetransmission : Nat := 3

/-- isContextError of package metric: exact comparison of the error message
with the context deadline and cancellation messages. -/
def isContextError (e : Option GoErr) : Bool :=
  match e with
  | none => false
  | some err =>
    err.errMsg == "context deadline exceeded" || err.errMsg == "context canceled"

/-- ExecutionMetrics counters. -/
structure ExecutionMetrics where
  totalQueries : Int
  cacheHits : Int
  errors : Int
  successes : Int
deriving DecidableEq

/-- NewExecutionMetrics: zero counters. -/
def NewExecutionMetrics : ExecutionMetrics :=
  { totalQueries := 0, cacheHits := 0, errors := 0, successes := 0 }

/-- ExecutionMetrics.RecordCacheHit. -/
def ExecutionMetrics.RecordCacheHit (em : ExecutionMetrics) : ExecutionMetrics :=
  { em with totalQueries := em.totalQueries + 1, cacheHits := em.cacheHits + 1 }

/-- ExecutionMetrics.RecordError; the error argument is ignored as in the
source. -/
def ExecutionMetrics.RecordError (em : ExecutionMetrics) (_e : Option GoErr) : ExecutionMetrics :=
  { em with totalQueries := em.totalQueries + 1, errors := em.errors + 1 }

/-- ExecutionMetrics.RecordSuccess. -/
def ExecutionMetrics.RecordSuccess (em : ExecutionMetrics) : ExecutionMetrics :=
  { em with totalQueries := em.totalQueries + 1, successes := em.successes + 1 }

/-- model.Query. -/
structure Query where
  expr : String
  datasourceID : String
deriving DecidableEq

/-- The environment of one iteration of the query executor retry loop: context
state at the top-of-loop check, during the pre-attempt backoff, the attempt
outcome, and context state at the post-attempt check. -/
structure QEAttemptStep where
  ctxErrTop : Option CtxErr
  backoffCtxErr : Option CtxErr
  result : List MetricSeries
  err : Option GoErr
  ctxErrAfter : Option CtxErr

/-- The environment of a whole executor retry loop run, indexed by attempt. -/
def QEEnv := Nat → QEAttemptStep

/-- The outcome of the executor retry loop: the returned slice (nil becomes
the empty list), the error, and the number of backend attempts made. -/
structure QERunResult where
  result : List MetricSeries
  err : Option GoErr
  attempts : Nat
deriving DecidableEq

/-- executeWithRetry of QueryExecutor: up to MaxRetransmission attempts, a
quadratic backoff before each retry, immediate return on a context-classified
error or an expired context, and after exhaustion the last error wrapped with
the attempt count. The unreachable exhaustion-without-error case wraps a
placeholder, as fmt would format a nil wrapped error. -/
def qeExecuteWithRetryLoop (env : QEEnv) : Nat → Nat → Option GoErr → QERunResult
  | attempt, 0, lastErr =>
    { result := []
      err := some (GoErr.wrap ("query failed after 3 attempts")
        (match lastErr with | some le => le | none => GoErr.backend ("<nil>")))
      attempts := attempt }
  | attempt, rem + 1, _lastErr =>
    let step := env attempt
    match step.ctxErrTop with
    | some ce => { result := [], err := some ce.toGoErr, attempts := attempt }
    | none =>
      match (if 0 < attempt then step.backoffCtxErr else none) with
      | some ce => { result := [], err := some ce.toGoErr, attempts := attempt }
      | none =>
        match step.err with
        | none => { result := step.result, err := none, attempts := attempt + 1 }
        | some e =>
          if isContextError (some e) then
            { result := [], err := some e, attempts := attempt + 1 }
          else
            match step.ctxErrAfter with
            | some ce => { result := [], err := some ce.toGoErr, attempts := attempt + 1 }
            | none => qeExecuteWithRetryLoop env (attempt + 1) rem (some e)

/-- executeWithRetry of QueryExecutor entered at attempt zero with the full
budget of three. -/
def qeExecuteWithRetry (env : QEEnv) : QERunResult :=
  qeExecuteWithRetryLoop env 0 3 none

/-- The observable outcome of QueryExecutor.ExecuteQuery: the returned pair
and the cache and metrics states after the call. -/
structure ExecResult where
  result : Option (List MetricSeries)
  err : Option GoErr
  cache : MetricCache
  metrics : ExecutionMetrics
deriving DecidableEq

/-- QueryExecutor.ExecuteQuery: consult the cache under the key built from the
gatherer ID, the query expression and the point-in-time range; on a hit record
a cache hit and return; otherwise wait on the semaphore (a context expiry
while waiting returns a wrapped rate-limit error), run the retry loop, record
an error and return it on failure, or store the result and record a success. -/
def ExecuteQuery (cache : MetricCache) (metrics : ExecutionMetrics) (now : Int)
    (gathererID : String) (query : Query) (t : Int)
    (semaphoreTimedOut : Bool) (semaphoreCtxErr : CtxErr) (env : QEEnv) : ExecResult :=
  let tr : TimeRange := { start := t, endT := t }
  let cacheKey := NewCacheKey gathererID query.expr tr
  let g := cache.Get now cacheKey
  if g.found then
    { result := g.data, err := none, cache := g.cache, metrics := metrics.RecordCacheHit }
  else if semaphoreTimedOut then
    { result := none
      err := some (GoErr.wrap ("query execution timeout waiting for rate limit")
        semaphoreCtxErr.toGoErr)
      cache := g.cache, metrics := metrics }
  else
    let r := qeExecuteWithRetry env
    match r.err with
    | some e =>
      { result := none, err := some e, cache := g.cache
        metrics := metrics.RecordError (some e) }
    | none =>
      { result := some r.result, err := none
        cache := MetricCache.Set g.cache now cacheKey r.result
        metrics := metrics.RecordSuccess }

end Grafterm.Metric

section Helpers

open Grafterm

theorem lookupA_insertA_self {α : Type} (es : List (String × α)) (k : String) (v : α) :
    lookupA (insertA es k v) k = some v := by
  induction es with
  | nil => simp [insertA, lookupA]
  | cons p rest ih =>
    by_cases h : p.1 = k
    · simp [insertA, lookupA, h]
    · simp [insertA, lookupA, h, ih]

theorem lookupA_insertA_ne {α : Type} (es : List (String × α)) (k k2 : String) (v : α)
    (h : k2 ≠ k) : lookupA (insertA es k2 v) k = lookupA es k := by
  induction es with
  | nil => simp [insertA, lookupA, h]
  | cons p rest ih =>
    by_cases hp : p.1 = k2
    · simp [insertA, lookupA, hp, h]
    · by_cases hk : p.1 = k
      · simp [insertA, lookupA, hp, hk, Ne.symm h]
      · simp [insertA, lookupA, hp, hk, ih]

end Helpers

/-- C1: the cache key under which MetricCache stores and looks up data ignores
the time range: storing under one range and reading under a different range of
the same datasource and query hits the stored entry. This evaluates the model
at the failing input of the claim. -/
theorem claim_C1 :
    ({ start := 0, endT := 100 } : Grafterm.TimeRange) ≠ { start := 200, endT := 300 } ∧
    (Grafterm.Metric.MetricCache.Get
      (Grafterm.Metric.MetricCache.Set (Grafterm.Metric.NewMetricCache 100 1000) 10
        (Grafterm.Metric.NewCacheKey ("prom") ("up") { start := 0, endT := 100 })
        [{ id := "a", labels := [], points := [] }]) 10
      (Grafterm.Metric.NewCacheKey ("prom") ("up") { start := 200, endT := 300 })).found =
      true ∧
    (Grafterm.Metric.MetricCache.Get
      (Grafterm.Metric.MetricCache.Set (Grafterm.Metric.NewMetricCache 100 1000) 10
        (Grafterm.Metric.NewCacheKey ("prom") ("up") { start := 0, endT := 100 })
        [{ id := "a", labels := [], points := [] }]) 10
      (Grafterm.Metric.NewCacheKey ("prom") ("up") { start := 200, endT := 300 })).data =
      some [{ id := "a", labels := [], points := [] }] := by
  refine ⟨by decide, rfl, rfl⟩

/-- C7 counterexample: on a MetricCache whose maxAge is zero, a Set followed
immediately by a Get with the same key misses, so the claim does not hold for
every MetricCache. -/
theorem claim_C7_counterexample :
    let mc0 := Grafterm.Metric.NewMetricCache 100 0
    let k := Grafterm.Metric.NewCacheKey ("prom") ("up") { start := 0, endT := 100 }
    ((mc0.Set 5 k []).Get 5 k).found = false ∧
    ((mc0.Set 5 k []).Get 5 k).data = none := by
  refine ⟨rfl, rfl⟩

/-- C7 amended: on any MetricCache with positive maxAge, a Set followed
immediately by a Get with the same key returns the stored data and found true. -/
theorem claim_C7 (mc : Grafterm.Metric.MetricCache) (now : Int)
    (key : Grafterm.Metric.MetricCacheKey) (data : List Grafterm.MetricSeries)
    (h : 0 < mc.maxAge) :
    ((mc.Set now key data).Get now key).found = true ∧
    ((mc.Set now key data).Get now key).data = some data := by
  unfold Grafterm.Metric.MetricCache.Set Grafterm.Metric.MetricCache.Get
  have hma : (if ((mc.entries.length : Int) * 2 > mc.maxSize) then mc.evictOldEntries now
      else mc).maxAge = mc.maxAge := by
    split <;> rfl
  simp only [lookupA_insertA_self, hma]
  have hlt : now < now + mc.maxAge := by omega
  simp [hlt]

/-- C7 witness: the amended theorem applied at a concrete cache, key and data. -/
theorem claim_C7_witness :
    (0 : Int) < (Grafterm.Metric.NewMetricCache 100 1000).maxAge ∧
    (((Grafterm.Metric.NewMetricCache 100 1000).Set 5
        (Grafterm.Metric.NewCacheKey ("ds") ("up") { start := 0, endT := 0 }) []).Get 5
        (Grafterm.Metric.NewCacheKey ("ds") ("up") { start := 0, endT := 0 })).found = true :=
  ⟨by decide,
   (claim_C7 (Grafterm.Metric.NewMetricCache 100 1000) 5
     (Grafterm.Metric.NewCacheKey ("ds") ("up") { start := 0, endT := 0 }) []
     (by decide)).1⟩

/-- C10: Stats is total and never divides by zero: the hit rate is zero when
hits plus misses is zero, and otherwise hits over the total times 100; a fresh
cache and a just-cleared cache report a zero hit rate. -/
theorem claim_C10 (mc : Grafterm.Metric.MetricCache)
    (h1 : 0 ≤ mc.hits) (h2 : 0 ≤ mc.misses) :
    (mc.hits + mc.misses = 0 → mc.Stats.hitRate = 0) ∧
    (mc.hits + mc.misses ≠ 0 →
      mc.Stats.hitRate = (mc.hits : Rat) / ((mc.hits + mc.misses : Int) : Rat) * 100) ∧
    (Grafterm.Metric.MetricCache.Stats (Grafterm.Metric.NewMetricCache mc.maxSize mc.maxAge)).hitRate = 0 ∧
    (Grafterm.Metric.MetricCache.Stats mc.Clear).hitRate = 0 := by
  unfold Grafterm.Metric.MetricCache.Stats Grafterm.Metric.NewMetricCache
    Grafterm.Metric.MetricCache.Clear
  refine ⟨fun h0 => by simp [h0], fun hne => ?_, by simp, by simp⟩
  have hpos : 0 < mc.hits + mc.misses := by omega
  simp [hpos]

/-- C10 witness: the theorem applied at a concrete cache state. -/
theorem claim_C10_witness :
    ((Grafterm.Metric.NewMetricCache 10 10).Stats).hitRate = 0 :=
  ((claim_C10 (Grafterm.Metric.NewMetricCache 10 10) (by decide) (by decide)).1) (by decide)

/-- C2 counterexample: with every attempt failing with a plain transient
backend error and an undisturbed context, executeWithRetry makes two attempts,
not three, and returns the last error unwrapped. -/
theorem claim_C2_counterexample :
    let env : Grafterm.Prometheus.RetryEnv := fun _ =>
      { ctxErr := none, result := [], err := some (Grafterm.GoErr.backend ("boom"))
        backoffCtxErr := none }
    (Grafterm.Prometheus.executeWithRetry env).attempts = 2 ∧
    (Grafterm.Prometheus.executeWithRetry env).attempts ≠ 3 ∧
    (Grafterm.Prometheus.executeWithRetry env).err = some (Grafterm.GoErr.backend ("boom")) ∧
    (Grafterm.Prometheus.executeWithRetry env).mark = some Grafterm.Prometheus.MarkKind.failure := by
  refine ⟨by decide, by decide, by decide, by decide⟩

/-- C2 amended: when both available attempts fail with non-context errors and
the context never fires, executeWithRetry makes exactly two attempts in total,
sleeps one backoff of 100 milliseconds scaled by the attempt index between
them, records a failure outcome, and returns the last error unwrapped. -/
theorem claim_C2 (env : Grafterm.Prometheus.RetryEnv) (e0 e1 : Grafterm.GoErr)
    (h0c : (env 0).ctxErr = none) (h0e : (env 0).err = some e0)
    (h0n : Grafterm.Prometheus.isContextError (some e0) = false)
    (h0b : (env 0).backoffCtxErr = none)
    (h1c : (env 1).ctxErr = none) (h1e : (env 1).err = some e1)
    (h1n : Grafterm.Prometheus.isContextError (some e1) = false) :
    Grafterm.Prometheus.executeWithRetry env =
      { result := none, err := some e1, attempts := 2, backoffs := [100000000]
        mark := some Grafterm.Prometheus.MarkKind.failure
        exitPath := Grafterm.Prometheus.ExitKind.exhausted } := by
  simp [Grafterm.Prometheus.executeWithRetry, Grafterm.Prometheus.executeWithRetryLoop,
    h0c, h0e, h0n, h0b, h1c, h1e, h1n]

/-- C2 witness: the amended theorem applied at a concrete environment whose
two attempts fail with the transient error boom. -/
theorem claim_C2_witness :
    (Grafterm.Prometheus.executeWithRetry (fun _ =>
      { ctxErr := none, result := [], err := some (Grafterm.GoErr.backend ("boom"))
        backoffCtxErr := none })).attempts = 2 := by
  have h := claim_C2 (fun _ =>
      { ctxErr := none, result := [], err := some (Grafterm.GoErr.backend ("boom"))
        backoffCtxErr := none })
    (Grafterm.GoErr.backend ("boom")) (Grafterm.GoErr.backend ("boom"))
    rfl rfl (by decide) rfl rfl rfl (by decide)
  rw [h]

/-- The retry loop leaves the mark unset exactly on the exit taken when the
context fires during a backoff wait. -/
theorem loop_mark_none_iff (bs : Int) (msg : String) (env : Grafterm.Prometheus.RetryEnv) :
    ∀ rem retry le acc,
      ((Grafterm.Prometheus.executeWithRetryLoop bs msg env retry rem le acc).mark = none ↔
        (Grafterm.Prometheus.executeWithRetryLoop bs msg env retry rem le acc).exitPath =
          Grafterm.Prometheus.ExitKind.backoffInterrupted) := by
  intro rem
  induction rem with
  | zero =>
    intro retry le acc
    simp [Grafterm.Prometheus.executeWithRetryLoop]
  | succ rem ih =>
    intro retry le acc
    simp only [Grafterm.Prometheus.executeWithRetryLoop]
    cases hc : (env retry).ctxErr with
    | some ce => simp
    | none =>
      cases he : (env retry).err with
      | none => simp
      | some e =>
        by_cases hic : Grafterm.Prometheus.isContextError (some e) = true
        · simp [hic]
        · simp only [Bool.not_eq_true] at hic
          by_cases hrem : 0 < rem
          · cases hb : (env retry).backoffCtxErr with
            | some ce => simp [hic, hrem, hb]
            | none => simp [hic, hrem, hb, ih]
          · simp [hic, hrem, ih]

/-- C3 counterexample: when the context is cancelled during the backoff wait
after a failed first attempt, the retry loop returns without incrementing any
outcome counter. -/
theorem claim_C3_counterexample :
    let env : Grafterm.Prometheus.RetryEnv := fun _ =>
      { ctxErr := none, result := [], err := some (Grafterm.GoErr.backend ("boom"))
        backoffCtxErr := some Grafterm.CtxErr.canceled }
    (Grafterm.Prometheus.executeWithRetry env).mark = none ∧
    (Grafterm.Prometheus.executeWithRetry env).err = some Grafterm.GoErr.ctxCanceled := by
  refine ⟨by decide, by decide⟩

/-- C3 amended: totalQueries always equals the sum of the success, failure and
timeout counters, each mark increments the total and exactly one outcome
counter, and every exit of the retry loops of GatherSingle and GatherRange
records exactly one outcome, except the exit taken when the context fires
during a backoff wait, which records none. -/
theorem claim_C3 :
    (∀ ks : List Grafterm.Prometheus.MarkKind,
      (Grafterm.Prometheus.applyMarks Grafterm.Prometheus.initialMetrics ks).queriesTotal =
        (Grafterm.Prometheus.applyMarks Grafterm.Prometheus.initialMetrics ks).queriesSuccessful +
        (Grafterm.Prometheus.applyMarks Grafterm.Prometheus.initialMetrics ks).queriesFailed +
        (Grafterm.Prometheus.applyMarks Grafterm.Prometheus.initialMetrics ks).queriesTimeout) ∧
    (∀ m : Grafterm.Prometheus.GathererMetricsState, ∀ k : Grafterm.Prometheus.MarkKind,
      (Grafterm.Prometheus.applyMark m k).queriesTotal = m.queriesTotal + 1 ∧
      (Grafterm.Prometheus.applyMark m k).queriesSuccessful +
        (Grafterm.Prometheus.applyMark m k).queriesFailed +
        (Grafterm.Prometheus.applyMark m k).queriesTimeout =
        m.queriesSuccessful + m.queriesFailed + m.queriesTimeout + 1) ∧
    (∀ env : Grafterm.Prometheus.RetryEnv,
      ((Grafterm.Prometheus.executeWithRetry env).mark = none ↔
        (Grafterm.Prometheus.executeWithRetry env).exitPath =
          Grafterm.Prometheus.ExitKind.backoffInterrupted)) ∧
    (∀ env : Grafterm.Prometheus.RetryEnv,
      ((Grafterm.Prometheus.executeWithRetryForRange env).mark = none ↔
        (Grafterm.Prometheus.executeWithRetryForRange env).exitPath =
          Grafterm.Prometheus.ExitKind.backoffInterrupted)) := by
  refine ⟨?_, ?_, ?_, ?_⟩
  · have key : ∀ ks : List Grafterm.Prometheus.MarkKind,
        ∀ m : Grafterm.Prometheus.GathererMetricsState,
        m.queriesTotal = m.queriesSuccessful + m.queriesFailed + m.queriesTimeout →
        (Grafterm.Prometheus.applyMarks m ks).queriesTotal =
          (Grafterm.Prometheus.applyMarks m ks).queriesSuccessful +
          (Grafterm.Prometheus.applyMarks m ks).queriesFailed +
          (Grafterm.Prometheus.applyMarks m ks).queriesTimeout := by
      intro ks
      induction ks with
      | nil => intro m hm; simpa [Grafterm.Prometheus.applyMarks] using hm
      | cons k rest ih =>
        intro m hm
        apply ih
        cases k <;>
          simp [Grafterm.Prometheus.applyMark, Grafterm.Prometheus.markSuccess,
            Grafterm.Prometheus.markFailure, Grafterm.Prometheus.markTimeout] <;> omega
    intro ks
    exact key ks Grafterm.Prometheus.initialMetrics (by simp [Grafterm.Prometheus.initialMetrics])
  · intro m k
    cases k <;>
      simp [Grafterm.Prometheus.applyMark, Grafterm.Prometheus.markSuccess,
        Grafterm.Prometheus.markFailure, Grafterm.Prometheus.markTimeout] <;> omega
  · intro env
    exact loop_mark_none_iff 100000000 ("query deadline exceeded") env 2 0 none []
  · intro env
    exact loop_mark_none_iff 250000000 ("range query deadline exceeded") env 2 0 none []

/-- C5 counterexample: isContextError classifies by substring matching on the
error message, so the plain transient backend error request timeout is
classified as a context error even though it is neither context error value,
and the retry loop then counts it as a timeout after a single attempt. -/
theorem claim_C5_counterexample :
    let e := Grafterm.GoErr.backend ("request timeout")
    let env : Grafterm.Prometheus.RetryEnv := fun _ =>
      { ctxErr := none, result := [], err := some e, backoffCtxErr := none }
    Grafterm.Prometheus.isContextError (some e) = true ∧
    e ≠ Grafterm.GoErr.ctxDeadlineExceeded ∧
    e ≠ Grafterm.GoErr.ctxCanceled ∧
    (Grafterm.Prometheus.executeWithRetry env).mark =
      some Grafterm.Prometheus.MarkKind.timeout ∧
    (Grafterm.Prometheus.executeWithRetry env).attempts = 1 := by
  refine ⟨by decide, by decide, by decide, by decide, by decide⟩

/-- C5 amended: whenever the first attempt returns an error the substring
classifier accepts, both retry loops stop after exactly one attempt, return
that error unchanged, and record a timeout outcome, not a failure. -/
theorem claim_C5 (env : Grafterm.Prometheus.RetryEnv) (e : Grafterm.GoErr)
    (h0c : (env 0).ctxErr = none) (h0e : (env 0).err = some e)
    (hic : Grafterm.Prometheus.isContextError (some e) = true) :
    Grafterm.Prometheus.executeWithRetry env =
      { result := none, err := some e, attempts := 1, backoffs := []
        mark := some Grafterm.Prometheus.MarkKind.timeout
        exitPath := Grafterm.Prometheus.ExitKind.attemptCtxErr } ∧
    Grafterm.Prometheus.executeWithRetryForRange env =
      { result := none, err := some e, attempts := 1, backoffs := []
        mark := some Grafterm.Prometheus.MarkKind.timeout
        exitPath := Grafterm.Prometheus.ExitKind.attemptCtxErr } := by
  constructor <;>
    simp [Grafterm.Prometheus.executeWithRetry, Grafterm.Prometheus.executeWithRetryForRange,
      Grafterm.Prometheus.executeWithRetryLoop, h0c, h0e, hic]

/-- C5 witness: the amended theorem applied at an environment whose first
attempt fails with the real context deadline error. -/
theorem claim_C5_witness :
    (Grafterm.Prometheus.executeWithRetry (fun _ =>
      { ctxErr := none, result := [], err := some Grafterm.GoErr.ctxDeadlineExceeded
        backoffCtxErr := none })).mark = some Grafterm.Prometheus.MarkKind.timeout := by
  have h := claim_C5 (fun _ =>
      { ctxErr := none, result := [], err := some Grafterm.GoErr.ctxDeadlineExceeded
        backoffCtxErr := none })
    Grafterm.GoErr.ctxDeadlineExceeded rfl rfl (by decide)
  rw [h.1]

/-- The timeout cap at the end of calculateRangeTimeout is a minimum. -/
theorem capIf_eq_min (t : Int) :
    (if (30000000000 : Int) < t then (30000000000 : Int) else t) = min t 30000000000 := by
  split <;> omega

/-- SetTimeout always stores a value between MinTimeout and MaxTimeout. -/
theorem setTimeout_bounds (d : Int) :
    Grafterm.Prometheus.MinTimeout ≤ Grafterm.Prometheus.SetTimeout d ∧
    Grafterm.Prometheus.SetTimeout d ≤ Grafterm.Prometheus.MaxTimeout := by
  simp only [Grafterm.Prometheus.SetTimeout, Grafterm.Prometheus.MinTimeout,
    Grafterm.Prometheus.MaxTimeout, Grafterm.Prometheus.DefaultTimeout]
  split <;> split <;> split <;> omega

/-- C6: for a base timeout within the clamp bounds maintained by SetTimeout,
calculateRangeTimeout is non-decreasing in the range length, never exceeds 30
seconds, returns the base timeout unscaled for ranges of one hour or shorter,
and for longer ranges returns base times rangeDuration over one hour capped at
30 seconds. -/
theorem claim_C6 (base : Int)
    (hmin : (1000000000 : Int) ≤ base) (hmax : base ≤ (30000000000 : Int)) :
    (∀ s1 e1 s2 e2 : Int, e1 - s1 ≤ e2 - s2 →
      Grafterm.Prometheus.calculateRangeTimeout base s1 e1 ≤
        Grafterm.Prometheus.calculateRangeTimeout base s2 e2) ∧
    (∀ s e : Int, Grafterm.Prometheus.calculateRangeTimeout base s e ≤ 30000000000) ∧
    (∀ s e : Int, e - s ≤ 3600000000000 →
      Grafterm.Prometheus.calculateRangeTimeout base s e = base) ∧
    (∀ s e : Int, 3600000000000 < e - s →
      Grafterm.Prometheus.calculateRangeTimeout base s e =
        min (Int.ofNat (base.toNat * (e - s).toNat / 3600000000000)) 30000000000) := by
  have hbase0 : (0 : Int) ≤ base := by omega
  refine ⟨?_, ?_, ?_, ?_⟩
  · intro s1 e1 s2 e2 hr
    by_cases h1 : (3600000000000 : Int) < e1 - s1
    · have h2 : (3600000000000 : Int) < e2 - s2 := by omega
      simp only [Grafterm.Prometheus.calculateRangeTimeout, h1, h2, if_true, if_pos]
      rw [capIf_eq_min, capIf_eq_min]
      refine min_le_min ?_ le_rfl
      exact Int.ofNat_le.mpr (Nat.div_le_div_right (Nat.mul_le_mul le_rfl (by omega)))
    · by_cases h2 : (3600000000000 : Int) < e2 - s2
      · simp only [Grafterm.Prometheus.calculateRangeTimeout, h1, h2, if_pos, if_neg,
          not_false_iff, if_false]
        rw [capIf_eq_min]
        refine le_min ?_ hmax
        calc base = ((base.toNat : Int)) := by rw [Int.toNat_of_nonneg hbase0]
        _ ≤ Int.ofNat (base.toNat * (e2 - s2).toNat / 3600000000000) := by
            apply Int.ofNat_le.mpr
            rw [Nat.le_div_iff_mul_le (by norm_num)]
            exact Nat.mul_le_mul le_rfl (by omega)
      · simp [Grafterm.Prometheus.calculateRangeTimeout, h1, h2]
  · intro s e
    by_cases h : (3600000000000 : Int) < e - s
    · simp only [Grafterm.Prometheus.calculateRangeTimeout, h, if_pos]
      rw [capIf_eq_min]
      exact min_le_right _ _
    · simp only [Grafterm.Prometheus.calculateRangeTimeout, h, if_neg, not_false_iff, if_false]
      exact hmax
  · intro s e hle
    have h : ¬ (3600000000000 : Int) < e - s := by omega
    simp [Grafterm.Prometheus.calculateRangeTimeout, h]
  · intro s e h
    simp only [Grafterm.Prometheus.calculateRangeTimeout, h, if_pos]
    rw [capIf_eq_min]

/-- C6 witness: the theorem applied at the default base timeout of five
seconds and a two hour range. -/
theorem claim_C6_witness :
    Grafterm.Prometheus.calculateRangeTimeout 5000000000 0 7200000000000 ≤ 30000000000 :=
  (claim_C6 5000000000 (by norm_num) (by norm_num)).2.1 0 7200000000000

/-- Looking up a key in the overridden dashboard map gives the user gatherer
whenever the key is present in both maps. -/
theorem overrideWithUser_lookup (ags : List (String × Grafterm.Datasource.GathererRef))
    (id : String) (g v : Grafterm.Datasource.GathererRef) :
    ∀ gs, Grafterm.lookupA gs id = some v → Grafterm.lookupA ags id = some g →
      Grafterm.lookupA (Grafterm.Datasource.overrideWithUser gs ags) id = some g := by
  intro gs
  induction gs with
  | nil => intro h; simp [Grafterm.lookupA] at h
  | cons p rest ih =>
    obtain ⟨k, v2⟩ := p
    intro hgs hu
    by_cases hk : k = id
    · subst hk
      cases hma : Grafterm.lookupA ags k with
      | none => rw [hma] at hu; cases hu
      | some g2 =>
        have hg : g2 = g := by rw [hma] at hu; injection hu
        subst hg
        simp [Grafterm.Datasource.overrideWithUser, Grafterm.lookupA, hma]
    · have hrest : Grafterm.lookupA rest id = some v := by
        simpa [Grafterm.lookupA, hk] using hgs
    
      cases hma : Grafterm.lookupA ags k with
      | none =>
        simp only [Grafterm.Datasource.overrideWithUser, List.map_cons, hma]
        simpa [Grafterm.lookupA, hk, Grafterm.Datasource.overrideWithUser]
          using ih hrest hu
      | some g2 =>
        simp only [Grafterm.Datasource.overrideWithUser, List.map_cons, hma]
        simpa [Grafterm.lookupA, hk, Grafterm.Datasource.overrideWithUser]
          using ih hrest hu

/-- Applying aliases none of which mentions a given dashboard ID leaves the
lookup of that ID unchanged. -/
theorem applyAliases_lookup_preserved (ags : List (String × Grafterm.Datasource.GathererRef))
    (d : String) :
    ∀ al gs r, (∀ p ∈ al, p.1 ≠ d) →
      Grafterm.Datasource.applyAliases ags gs al = Except.ok r →
      Grafterm.lookupA r d = Grafterm.lookupA gs d := by
  intro al
  induction al with
  | nil =>
    intro gs r _ h
    simp only [Grafterm.Datasource.applyAliases] at h
    injection h with h
    rw [h]
  | cons p rest ih =>
    obtain ⟨id, aliasT⟩ := p
    intro gs r hne h
    cases hma : Grafterm.lookupA ags aliasT with
    | none => simp [Grafterm.Datasource.applyAliases, hma] at h
    | some ag =>
      simp only [Grafterm.Datasource.applyAliases, hma] at h
      have hid : id ≠ d := hne (id, aliasT) (List.mem_cons_self _ _)
      have := ih (Grafterm.insertA gs id ag) r
        (fun q hq => hne q (List.mem_cons_of_mem _ hq)) h
      rw [this, lookupA_insertA_ne gs d id ag hid]

/-- When the alias map has unique dashboard IDs and application succeeds,
every alias entry resolves its dashboard ID to the user gatherer named by the
alias target. -/
theorem applyAliases_resolves (ags : List (String × Grafterm.Datasource.GathererRef)) :
    ∀ al, (al.map Prod.fst).Nodup →
      ∀ gs r d u, (d, u) ∈ al →
        Grafterm.Datasource.applyAliases ags gs al = Except.ok r →
        ∃ g, Grafterm.lookupA ags u = some g ∧ Grafterm.lookupA r d = some g := by
  intro al
  induction al with
  | nil => intro _ gs r d u hmem; cases hmem
  | cons p rest ih =>
    obtain ⟨id, aliasT⟩ := p
    intro hnd gs r d u hmem h
    have hnd1 : ∀ q ∈ rest, q.1 ≠ id := by
      intro q hq hqe
      have hmem2 : q.1 ∈ rest.map Prod.fst := List.mem_map_of_mem Prod.fst hq
      rw [hqe] at hmem2
      exact (List.nodup_cons.mp hnd).1 hmem2
    have hnd2 : (rest.map Prod.fst).Nodup := (List.nodup_cons.mp hnd).2
    cases hma : Grafterm.lookupA ags aliasT with
    | none => simp [Grafterm.Datasource.applyAliases, hma] at h
    | some ag =>
      simp only [Grafterm.Datasource.applyAliases, hma] at h
      rcases List.mem_cons.mp hmem with heq | hrest
      · have hd : d = id := by
          have := congrArg Prod.fst heq
          simpa using this
        have hu2 : u = aliasT := by
          have := congrArg Prod.snd heq
          simpa using this
        subst hd
        subst hu2
        refine ⟨ag, hma, ?_⟩
        have hpres := applyAliases_lookup_preserved ags d rest
          (Grafterm.insertA gs d ag) r hnd1 h
        rw [hpres, lookupA_insertA_self]
      · exact ih hnd2 (Grafterm.insertA gs id ag) r d u hrest h

/-- An alias whose target is absent from the user map makes alias application
fail, whatever the accumulated router map is. -/
theorem applyAliases_dangling (ags : List (String × Grafterm.Datasource.GathererRef)) :
    ∀ al gs d u, (d, u) ∈ al → Grafterm.lookupA ags u = none →
      Grafterm.Datasource.exceptIsOk (Grafterm.Datasource.applyAliases ags gs al) = false := by
  intro al
  induction al with
  | nil => intro gs d u hmem; cases hmem
  | cons p rest ih =>
    obtain ⟨id, aliasT⟩ := p
    intro gs d u hmem hnone
    rcases List.mem_cons.mp hmem with heq | hrest
    · have hu2 : u = aliasT := by
        have := congrArg Prod.snd heq
        simpa using this
      subst hu2
      simp [Grafterm.Datasource.applyAliases, hnone, Grafterm.Datasource.exceptIsOk]
    · cases hma : Grafterm.lookupA ags aliasT with
      | none => simp [Grafterm.Datasource.applyAliases, hma, Grafterm.Datasource.exceptIsOk]
      | some ag =>
        simp only [Grafterm.Datasource.applyAliases, hma]
        exact ih (Grafterm.insertA gs id ag) d u hrest hnone

/-- C4: with the dashboard and user maps built, construction dispatches an ID
present in both sets (and not aliased) to the user gatherer, dispatches every
aliased dashboard ID to the user gatherer named by the alias target, and fails
with an error, returning no router, whenever an alias names an absent user ID. -/
theorem claim_C4 (dash user : List Grafterm.Datasource.Datasource)
    (aliases : List (String × String))
    (gs ags : List (String × Grafterm.Datasource.GathererRef))
    (hgs : Grafterm.Datasource.buildMap Grafterm.Datasource.Origin.dashboard dash [] =
      Except.ok gs)
    (hags : Grafterm.Datasource.buildMap Grafterm.Datasource.Origin.user user [] =
      Except.ok ags) :
    (∀ r, Grafterm.Datasource.NewGatherer dash user aliases = Except.ok r →
      (∀ id gD gU, Grafterm.lookupA gs id = some gD → Grafterm.lookupA ags id = some gU →
        (∀ p ∈ aliases, p.1 ≠ id) →
        Grafterm.Datasource.metricGatherer r id = Except.ok gU) ∧
      ((aliases.map Prod.fst).Nodup →
        ∀ d u, (d, u) ∈ aliases →
          ∃ g, Grafterm.lookupA ags u = some g ∧
            Grafterm.Datasource.metricGatherer r d = Except.ok g)) ∧
    (∀ d u, (d, u) ∈ aliases → Grafterm.lookupA ags u = none →
      Grafterm.Datasource.exceptIsOk (Grafterm.Datasource.NewGatherer dash user aliases) =
        false) := by
  have hng : Grafterm.Datasource.NewGatherer dash user aliases =
      Grafterm.Datasource.applyAliases ags
        (Grafterm.Datasource.overrideWithUser gs ags) aliases := by
    simp [Grafterm.Datasource.NewGatherer, hgs, hags]
  constructor
  · intro r hok
    rw [hng] at hok
    constructor
    · intro id gD gU hd hu hna
      have hpres := applyAliases_lookup_preserved ags id aliases
        (Grafterm.Datasource.overrideWithUser gs ags) r hna hok
      have hov := overrideWithUser_lookup ags id gU gD gs hd hu
      unfold Grafterm.Datasource.metricGatherer
      rw [hpres, hov]
    · intro hnd d u hmem
      obtain ⟨g, hg, hlook⟩ := applyAliases_resolves ags aliases hnd
        (Grafterm.Datasource.overrideWithUser gs ags) r d u hmem hok
      refine ⟨g, hg, ?_⟩
      unfold Grafterm.Datasource.metricGatherer
      rw [hlook]
  · intro d u hmem hnone
    rw [hng]
    exact applyAliases_dangling ags aliases
      (Grafterm.Datasource.overrideWithUser gs ags) d u hmem hnone

/-- C4 witness: a dashboard datasource prometheus and a user datasource of the
same ID with no aliases route queries for prometheus to the user gatherer. -/
theorem claim_C4_witness :
    Grafterm.Datasource.metricGatherer
      [("prometheus",
        { origin := Grafterm.Datasource.Origin.user
          ds := { id := "prometheus"
                  kind := some Grafterm.Datasource.DatasourceKind.prometheusDS } })]
      ("prometheus") =
    Except.ok
      { origin := Grafterm.Datasource.Origin.user
        ds := { id := "prometheus"
                kind := some Grafterm.Datasource.DatasourceKind.prometheusDS } } := by
  have h := claim_C4
    [{ id := "prometheus", kind := some Grafterm.Datasource.DatasourceKind.prometheusDS }]
    [{ id := "prometheus", kind := some Grafterm.Datasource.DatasourceKind.prometheusDS }]
    []
    [("prometheus",
      { origin := Grafterm.Datasource.Origin.dashboard
        ds := { id := "prometheus"
                kind := some Grafterm.Datasource.DatasourceKind.prometheusDS } })]
    [("prometheus",
      { origin := Grafterm.Datasource.Origin.user
        ds := { id := "prometheus"
                kind := some Grafterm.Datasource.DatasourceKind.prometheusDS } })]
    rfl rfl
  exact (h.1 _ rfl).1 ("prometheus")
    { origin := Grafterm.Datasource.Origin.dashboard
      ds := { id := "prometheus"
              kind := some Grafterm.Datasource.DatasourceKind.prometheusDS } }
    { origin := Grafterm.Datasource.Origin.user
      ds := { id := "prometheus"
              kind := some Grafterm.Datasource.DatasourceKind.prometheusDS } }
    rfl rfl (by simp)

/-- C8: dashboard Sync accounts for every widget task, returns nil
unconditionally, the collected errors always fit the buffered channel whose
capacity is the widget count, every failing task (error return, recovered
panic, or nil widget) contributes its converted error to the logged list, and
only clean returns contribute nothing. -/
theorem claim_C8 (widgets : List Grafterm.View.WidgetTask) :
    (Grafterm.View.dashboardSync widgets).returned = none ∧
    (Grafterm.View.dashboardSync widgets).channelCapacity = widgets.length ∧
    (Grafterm.View.dashboardSync widgets).loggedErrors.length ≤
      (Grafterm.View.dashboardSync widgets).channelCapacity ∧
    (∀ t ∈ widgets, ∀ m, Grafterm.View.widgetTaskError t = some m →
      m ∈ (Grafterm.View.dashboardSync widgets).loggedErrors) ∧
    (∀ t ∈ widgets, t.outcome ≠ Grafterm.View.WidgetOutcome.ok →
      (Grafterm.View.widgetTaskError t).isSome = true) := by
  refine ⟨rfl, rfl, ?_, ?_, ?_⟩
  · simpa [Grafterm.View.dashboardSync] using List.length_filterMap_le
      Grafterm.View.widgetTaskError widgets
  · intro t ht m hm
    simp only [Grafterm.View.dashboardSync]
    exact List.mem_filterMap.mpr ⟨t, ht, hm⟩
  · intro t _ hne
    cases hto : t.outcome with
    | ok => exact absurd hto hne
    | fail e =>
      cases hce : t.ctxErrAtCheck with
      | none => simp [Grafterm.View.widgetTaskError, hto, hce]
      | some ce => cases ce <;> simp [Grafterm.View.widgetTaskError, hto, hce]
    | panicked m => simp [Grafterm.View.widgetTaskError, hto]
    | isNil => simp [Grafterm.View.widgetTaskError, hto]

/-- C8 witness: the theorem applied to a wave of three widgets of which one
fails and one panics; both errors are logged and Sync returns nil. -/
theorem claim_C8_witness :
    (Grafterm.View.dashboardSync
      [{ outcome := Grafterm.View.WidgetOutcome.ok, ctxErrAtCheck := none },
       { outcome := Grafterm.View.WidgetOutcome.fail ("bad"), ctxErrAtCheck := none },
       { outcome := Grafterm.View.WidgetOutcome.panicked ("boom"), ctxErrAtCheck := none }]).returned =
      none ∧
    ("error syncing widget: bad") ∈
      (Grafterm.View.dashboardSync
        [{ outcome := Grafterm.View.WidgetOutcome.ok, ctxErrAtCheck := none },
         { outcome := Grafterm.View.WidgetOutcome.fail ("bad"), ctxErrAtCheck := none },
         { outcome := Grafterm.View.WidgetOutcome.panicked ("boom"), ctxErrAtCheck := none }]).loggedErrors := by
  have h := claim_C8
    [{ outcome := Grafterm.View.WidgetOutcome.ok, ctxErrAtCheck := none },
     { outcome := Grafterm.View.WidgetOutcome.fail ("bad"), ctxErrAtCheck := none },
     { outcome := Grafterm.View.WidgetOutcome.panicked ("boom"), ctxErrAtCheck := none }]
  refine ⟨h.1, ?_⟩
  exact h.2.2.2.1
    { outcome := Grafterm.View.WidgetOutcome.fail ("bad"), ctxErrAtCheck := none }
    (by simp) ("error syncing widget: bad") rfl

/-- C9 counterexample: a failing ExecuteQuery call can still mutate the cache
(the lookup lazily deletes an expired entry under the key) and the rate-limit
timeout path returns an error without recording any outcome in the execution
metrics. -/
theorem claim_C9_counterexample :
    let key0 := Grafterm.Metric.NewCacheKey ("ds") ("up") { start := 7, endT := 7 }
    let entry0 : Grafterm.Metric.CacheEntry :=
      { data := [], created := 0, expires := 3, hits := 0 }
    let mc0 : Grafterm.Metric.MetricCache :=
      { entries := [(Grafterm.Metric.cacheKeyString key0, entry0)], maxSize := 100
        maxAge := 1000, hits := 0, misses := 0 }
    let em0 := Grafterm.Metric.NewExecutionMetrics
    let env0 : Grafterm.Metric.QEEnv := fun _ =>
      { ctxErrTop := none, backoffCtxErr := none, result := [], err := none
        ctxErrAfter := none }
    let res := Grafterm.Metric.ExecuteQuery mc0 em0 5 ("ds")
      { expr := "up", datasourceID := "ds" } 7 true Grafterm.CtxErr.deadlineExceeded env0
    res.err ≠ none ∧
    res.cache.entries = [] ∧
    mc0.entries ≠ [] ∧
    res.metrics = em0 ∧
    res.metrics.errors = 0 := by
  refine ⟨by decide, by decide, by decide, by decide, by decide⟩

/-- C9 amended: every erroring ExecuteQuery call leaves the cache exactly in
the state produced by the initial lookup (no Set: at most the miss counter
moves and an expired entry under the key is lazily deleted), records an error
outcome when the retry loop failed, and records nothing at all when the
rate-limit wait timed out. -/
theorem claim_C9 (cache : Grafterm.Metric.MetricCache)
    (metrics : Grafterm.Metric.ExecutionMetrics) (now : Int) (gathererID : String)
    (query : Grafterm.Metric.Query) (t : Int) (sto : Bool) (sce : Grafterm.CtxErr)
    (env : Grafterm.Metric.QEEnv) (e : Grafterm.GoErr)
    (herr : (Grafterm.Metric.ExecuteQuery cache metrics now gathererID query t sto sce env).err =
      some e) :
    (Grafterm.Metric.ExecuteQuery cache metrics now gathererID query t sto sce env).cache =
      (cache.Get now
        (Grafterm.Metric.NewCacheKey gathererID query.expr { start := t, endT := t })).cache ∧
    (sto = true →
      (Grafterm.Metric.ExecuteQuery cache metrics now gathererID query t sto sce env).metrics =
        metrics) ∧
    (sto = false →
      (Grafterm.Metric.ExecuteQuery cache metrics now gathererID query t sto sce env).metrics =
        metrics.RecordError
          (Grafterm.Metric.ExecuteQuery cache metrics now gathererID query t sto sce env).err) := by
  by_cases hf : (cache.Get now
      (Grafterm.Metric.NewCacheKey gathererID query.expr { start := t, endT := t })).found
  · exfalso
    simp [Grafterm.Metric.ExecuteQuery, hf] at herr
  · cases hsto : sto with
    | true =>
      simp [Grafterm.Metric.ExecuteQuery, hf, hsto]
    | false =>
      cases hre : (Grafterm.Metric.qeExecuteWithRetry env).err with
      | none =>
        exfalso
        rw [hsto] at herr
        simp [Grafterm.Metric.ExecuteQuery, hf, hre] at herr
      | some e2 =>
        simp [Grafterm.Metric.ExecuteQuery, hf, hsto, hre]

/-- C9 witness: the amended theorem applied to an empty cache and an
environment whose three attempts all fail with a transient error; the cache
after the failing call equals the post-lookup cache and an error outcome is
recorded. -/
theorem claim_C9_witness :
    (Grafterm.Metric.ExecuteQuery (Grafterm.Metric.NewMetricCache 100 1000)
        Grafterm.Metric.NewExecutionMetrics 5 ("ds")
        { expr := "up", datasourceID := "ds" } 7 false Grafterm.CtxErr.deadlineExceeded
        (fun _ => { ctxErrTop := none, backoffCtxErr := none, result := []
                    err := some (Grafterm.GoErr.backend ("x")), ctxErrAfter := none })).cache =
      ((Grafterm.Metric.NewMetricCache 100 1000).Get 5
        (Grafterm.Metric.NewCacheKey ("ds") ("up") { start := 7, endT := 7 })).cache :=
  (claim_C9 (Grafterm.Metric.NewMetricCache 100 1000) Grafterm.Metric.NewExecutionMetrics
    5 ("ds") { expr := "up", datasourceID := "ds" } 7 false Grafterm.CtxErr.deadlineExceeded
    (fun _ => { ctxErrTop := none, backoffCtxErr := none, result := []
                err := some (Grafterm.GoErr.backend ("x")), ctxErrAfter := none })
    (Grafterm.GoErr.wrap ("query failed after 3 attempts") (Grafterm.GoErr.backend ("x")))
    (by decide)).1

/-- C3 witness: the invariant conjunct of the theorem evaluated on a concrete
mark sequence. -/
theorem claim_C3_witness :
    (Grafterm.Prometheus.applyMarks Grafterm.Prometheus.initialMetrics
      [Grafterm.Prometheus.MarkKind.success, Grafterm.Prometheus.MarkKind.timeout]).queriesTotal =
    (Grafterm.Prometheus.applyMarks Grafterm.Prometheus.initialMetrics
      [Grafterm.Prometheus.MarkKind.success, Grafterm.Prometheus.MarkKind.timeout]).queriesSuccessful +
    (Grafterm.Prometheus.applyMarks Grafterm.Prometheus.initialMetrics
      [Grafterm.Prometheus.MarkKind.success, Grafterm.Prometheus.MarkKind.timeout]).queriesFailed +
    (Grafterm.Prometheus.applyMarks Grafterm.Prometheus.initialMetrics
      [Grafterm.Prometheus.MarkKind.success, Grafterm.Prometheus.MarkKind.timeout]).queriesTimeout :=
  claim_C3.1 [Grafterm.Prometheus.MarkKind.success, Grafterm.Prometheus.MarkKind.timeout]
